import Mathlib

/-!
Verification of the tool-schema sanitization and orchestration pipeline of
`telegram_agent.py`. The Python source is shallowly embedded: the per-tool
annotation-patching loop (lines 30-52) becomes `patchHints` / `sanitizeTool` /
`sanitize`, and the `main` orchestrator (lines 14-90) becomes `run`, a function
from an environment of external-collaborator outcomes (configuration values,
completion-provider result, messaging-provider results) to the observable
behaviour of one invocation (send attempts, error logs, completion calls).
Raised Python exceptions are modelled by their message string (`str(e)`).
-/

set_option autoImplicit false

namespace TelegramAgent

/-- Model of a Python runtime value as far as parameter defaults are concerned.
`PyVal.none` is Python's `None` (the null sentinel); other defaults are grouped
into strings and ints, enough to distinguish "exactly `None`" from anything else. -/
inductive PyVal where
  | none
  | str (s : String)
  | int (n : Int)
deriving DecidableEq, Repr

/-- Model of a type annotation value (the entries of `f.__annotations__`).
`Ty.str` models Python's `str` type object, which line 42 of the source assigns. -/
inductive Ty where
  | str
  | int
  | other (descr : String)
deriving DecidableEq, Repr

/-- One parameter of a callable's signature, as `inspect.signature` reports it:
a name and an optional default. `Option.none` models `inspect.Parameter.empty`
(no default at all); `some PyVal.none` models an explicit `None` default. -/
structure Param where
  name : String
  default : Option PyVal
deriving DecidableEq, Repr

/-- Model of a registry-owned callable (the `tool.fn` objects of line 32):
its signature parameters, its `__annotations__` dict (an insertion-ordered
association list, as Python dicts are), and whether inspecting its signature
raises (line 36, the per-tool failure the source guards against). -/
structure ToolFn where
  toolName : String
  params : List Param
  hints : List (String × Ty)
  sigFails : Bool
deriving DecidableEq, Repr

/-- The parameter loop of lines 39-43: for each signature parameter, if its
name is not a key of the hints dict and its default is `None`, insert
`hints[name] = str` (a new dict key is appended at the end, as in Python) and
set the `changed` flag. -/
def patchHints : List Param → List (String × Ty) → Bool → List (String × Ty) × Bool
  | [], hints, changed => (hints, changed)
  | p :: ps, hints, changed =>
    if hints.lookup p.name = Option.none ∧ p.default = some PyVal.none then
      patchHints ps (hints ++ [(p.name, Ty.str)]) true
    else
      patchHints ps hints changed

/-- Lines 35-48 for a single tool: if `inspect.signature(f)` raises, the
exception is caught and the callable is left untouched; otherwise the hints
dict is patched and (when changed) written back to `f.__annotations__`.
Because line 37 aliases the live `__annotations__` dict, the patched hints are
the callable's hints afterwards in either branch of line 44. -/
def sanitizeTool (f : ToolFn) : ToolFn :=
  if f.sigFails then f
  else
    let r := patchHints f.params f.hints false
    if r.2 then { f with hints := r.1 } else f

/-- The whole loop of lines 31-50 over the registry's tool list: every
callable is processed (and appended to `tools_functions`) in order. -/
def sanitize (ts : List ToolFn) : List ToolFn := ts.map sanitizeTool

/-- State of the registry's own callables after the loop runs. Line 45 assigns
`f.__annotations__ = hints` on the very objects owned by the registry (and
line 37 already aliases that dict), so after the run the registry holds the
sanitized callables, not the originals. -/
def registryAfter (ts : List ToolFn) : List ToolFn := ts.map sanitizeTool

/-- The apostrophe character, used to spell out the fallback string below. -/
def apos : String := String.singleton (Char.ofNat 39)

/-- Fallback text of line 67, substituted when the completion returns no text. -/
def FALLBACK : String :=
  "I couldn" ++ apos ++ "t process that request properly. Please try again."

/-- Fixed header of the error text built at line 84. -/
def errorHead : String := "Sorry, I encountered an error: "

/-- Message logged at line 21 when a required environment variable is missing. -/
def missingEnvMsg : String :=
  "Missing environment variables: GOOGLE_API_KEY, TELEGRAM_BOT_TOKEN, TELEGRAM_CHAT_ID, TELEGRAM_MESSAGE"

/-- Python string slicing by code points, as in the source's error text slice
at line 88 (the slice keeps the first n characters). -/
def truncate (s : String) (n : Nat) : String := String.mk (s.toList.take n)

/-- Which of the two Telegram posts a send attempt is: the primary send of
line 78 or the error-notification send of line 87. -/
inductive SendKind where
  | primary
  | notification
deriving DecidableEq, Repr

/-- One outbound messaging-provider call: its payload (chat id, text, whether
the Markdown parse mode was set) and whether the provider reported success. -/
structure SendAttempt where
  kind : SendKind
  chatId : String
  text : String
  markdown : Bool
  ok : Bool
deriving DecidableEq, Repr

/-- Environment of one invocation of `main`: the four configuration inputs
(lines 15-18, `Option.none` models an unset variable) and the outcomes of each
external-collaborator interaction, listed in program order. An `Except.error m`
or `some m` failure field models that call raising an exception whose
`str(e)` is m. `completion` carries `response.text`, which may be `None`. -/
structure Env where
  api_key : Option String
  bot_token : Option String
  chat_id : Option String
  message : Option String
  clientInitFails : Option String
  listToolsFails : Option String
  registry : List ToolFn
  completion : Except String (Option String)
  primarySend : Except String Unit
  notifSend : Except String Unit
deriving Repr

/-- What happened inside the try block of lines 26-80: how many completion
calls were made, which tool list was passed to the completion call (if it was
reached), which send attempts were issued, and the exception (message) that
escaped the block, if any. -/
structure TryOutcome where
  completionCalls : Nat
  completionTools : Option (List ToolFn)
  attempts : List SendAttempt
  raised : Option String
deriving DecidableEq, Repr

/-- Observable behaviour of one whole invocation of `main`. `errorLogs`
records the `logger.error` calls (lines 21 and 83); info and debug logs are
not modelled. -/
structure RunResult where
  aborted : Bool
  completionCalls : Nat
  completionTools : Option (List ToolFn)
  sends : List SendAttempt
  errorLogs : List String
deriving DecidableEq, Repr

/-- Python truthiness of an optional string: unset and empty are falsy, as in
the `all([...])` check of line 20. -/
def truthy : Option String → Bool
  | Option.none => false
  | some s => !s.isEmpty

/-- The validation check of line 20. -/
def validated (env : Env) : Bool :=
  truthy env.api_key && truthy env.bot_token && truthy env.chat_id && truthy env.message

/-- Lines 64-67: the text handed to the primary send, with the fallback
substituted when `response.text` is `None` or empty. -/
def finalTextOf : Option String → String
  | Option.none => FALLBACK
  | some s => if s.isEmpty then FALLBACK else s

/-- The try block of lines 26-80: client construction, tool listing and
sanitization, the completion call, fallback substitution, and the primary
send. Each step either succeeds or raises; a raise ends the block with the
send attempts made so far and the exception message. Note the primary-send
attempt of line 78 is recorded even when it fails (`requests.post` raising or
`raise_for_status` firing), because the network call was made. -/
def tryBody (env : Env) : TryOutcome :=
  match env.clientInitFails with
  | some m => ⟨0, Option.none, [], some m⟩
  | Option.none =>
  match env.listToolsFails with
  | some m => ⟨0, Option.none, [], some m⟩
  | Option.none =>
  let tools := sanitize env.registry
  let cid := env.chat_id.getD ""
  match env.completion with
  | Except.error m => ⟨1, some tools, [], some m⟩
  | Except.ok t =>
    match env.primarySend with
    | Except.ok _ => ⟨1, some tools, [⟨SendKind.primary, cid, finalTextOf t, true, true⟩], Option.none⟩
    | Except.error m => ⟨1, some tools, [⟨SendKind.primary, cid, finalTextOf t, true, false⟩], some m⟩

/-- Result of the early return of lines 20-22. -/
def abortResult : RunResult := ⟨true, 0, Option.none, [], [missingEnvMsg]⟩

/-- The whole of `main` (lines 14-90). A failed validation returns after the
line 21 log with no network activity. Otherwise the try block runs; if it
raises, the handler of lines 82-90 logs the error, builds the error text,
truncates it to 4000 characters and attempts the notification send, swallowing
any failure of that send (the bare except of line 89). The codomain is
`Except String RunResult` so that an exception escaping `main` would be an
`Except.error`; the theorems show none does. -/
def run (env : Env) : Except String RunResult :=
  match validated env with
  | false => Except.ok abortResult
  | true =>
    let t := tryBody env
    match t.raised with
    | Option.none => Except.ok ⟨false, t.completionCalls, t.completionTools, t.attempts, []⟩
    | some m =>
      let cid := env.chat_id.getD ""
      Except.ok ⟨false, t.completionCalls, t.completionTools,
        t.attempts ++
          [⟨SendKind.notification, cid, truncate (errorHead ++ m) 4000, false, env.notifSend.isOk⟩],
        ["Error in agent processing: " ++ m]⟩

/-- Whether a send attempt is the primary send. -/
def isPrimary (a : SendAttempt) : Bool :=
  match a.kind with
  | SendKind.primary => true
  | SendKind.notification => false

/-- Whether a send attempt is the recovery notification. -/
def isNotif (a : SendAttempt) : Bool :=
  match a.kind with
  | SendKind.primary => false
  | SendKind.notification => true

/-- Number of primary-send attempts recorded in a run. -/
def primaryAttempts (r : RunResult) : Nat := r.sends.countP isPrimary

/-- Number of recovery-notification attempts recorded in a run. -/
def notifAttempts (r : RunResult) : Nat := r.sends.countP isNotif

/-- Whether the run aborted at validation with no send at all. -/
def abortedNoSend (r : RunResult) : Bool := r.aborted && r.sends.isEmpty

/-- Whether some primary send was attempted and reported success. -/
def primarySendOk (r : RunResult) : Bool :=
  r.sends.any (fun a => isPrimary a && a.ok)

/-- Exactly one of three booleans holds. -/
def exactlyOne (a b c : Bool) : Bool :=
  (a && !b && !c) || (!a && b && !c) || (!a && !b && c)

/-! ### Association-list lemmas for the hints dict -/

lemma lookup_append_some {l₁ l₂ : List (String × Ty)} {k : String} {v : Ty}
    (h : l₁.lookup k = some v) : (l₁ ++ l₂).lookup k = some v := by
  induction l₁ with
  | nil => simp at h
  | cons a t ih =>
    obtain ⟨k₁, v₁⟩ := a
    rw [List.lookup_cons] at h
    rw [List.cons_append, List.lookup_cons]
    cases hk : (k == k₁) with
    | true => rw [hk] at h; exact h
    | false => rw [hk] at h; exact ih h

lemma lookup_append_none {l₁ l₂ : List (String × Ty)} {k : String}
    (h : l₁.lookup k = Option.none) : (l₁ ++ l₂).lookup k = l₂.lookup k := by
  induction l₁ with
  | nil => simp
  | cons a t ih =>
    obtain ⟨k₁, v₁⟩ := a
    rw [List.lookup_cons] at h
    rw [List.cons_append, List.lookup_cons]
    cases hk : (k == k₁) with
    | true => rw [hk] at h; exact Option.noConfusion h
    | false => rw [hk] at h; exact ih h

lemma lookup_singleton_ne {k n : String} {t : Ty} (h : ¬n = k) :
    ([(n, t)] : List (String × Ty)).lookup k = Option.none := by
  rw [List.lookup_cons]
  have hk : (k == n) = false := by
    simp only [beq_eq_false_iff_ne, ne_eq]
    exact fun he => h he.symm
  rw [hk]
  simp

lemma lookup_singleton_self {n : String} {t : Ty} :
    ([(n, t)] : List (String × Ty)).lookup n = some t := by
  rw [List.lookup_cons, beq_self_eq_true]

/-! ### Behaviour of the patching loop -/

/-- Keys already bound in the hints dict keep their value through the loop:
the loop only ever inserts keys that are absent. -/
lemma patchHints_mono {ps : List Param} {hints : List (String × Ty)} {b : Bool}
    {k : String} {v : Ty} (h : hints.lookup k = some v) :
    ((patchHints ps hints b).1).lookup k = some v := by
  induction ps generalizing hints b with
  | nil => simpa [patchHints] using h
  | cons p ps ih =>
    by_cases hc : hints.lookup p.name = Option.none ∧ p.default = some PyVal.none
    · rw [patchHints, if_pos hc]
      exact ih (lookup_append_some h)
    · rw [patchHints, if_neg hc]
      exact ih h

/-- A key absent from the hints dict stays absent when no parameter of that
name has a `None` default: no loop iteration can insert it. -/
lemma patchHints_none {ps : List Param} {hints : List (String × Ty)} {b : Bool}
    {k : String} (hps : ∀ p ∈ ps, p.name = k → ¬p.default = some PyVal.none)
    (h : hints.lookup k = Option.none) :
    ((patchHints ps hints b).1).lookup k = Option.none := by
  induction ps generalizing hints b with
  | nil => simpa [patchHints] using h
  | cons p ps ih =>
    by_cases hc : hints.lookup p.name = Option.none ∧ p.default = some PyVal.none
    · have hpk : ¬p.name = k := fun he => hps p (by simp) he hc.2
      rw [patchHints, if_pos hc]
      refine ih (fun q hq => hps q (by simp [hq])) ?_
      rw [lookup_append_none h, lookup_singleton_ne hpk]
    · rw [patchHints, if_neg hc]
      exact ih (fun q hq => hps q (by simp [hq])) h

/-- The untyped-with-None-default parameter really gets bound to `str`
(assuming the signature's parameter names are distinct, as Python guarantees). -/
lemma patchHints_sets {ps : List Param} {hints : List (String × Ty)} {b : Bool}
    {p : Param} (hnd : (ps.map Param.name).Nodup) (hp : p ∈ ps)
    (hd : p.default = some PyVal.none) (hl : hints.lookup p.name = Option.none) :
    ((patchHints ps hints b).1).lookup p.name = some Ty.str := by
  induction ps generalizing hints b with
  | nil => exact absurd hp (by simp)
  | cons q ps ih =>
    rw [List.map_cons, List.nodup_cons] at hnd
    rcases List.mem_cons.mp hp with hpq | hp'
    · rw [hpq] at hd hl ⊢
      have hc : hints.lookup q.name = Option.none ∧ q.default = some PyVal.none := ⟨hl, hd⟩
      rw [patchHints, if_pos hc]
      refine patchHints_mono ?_
      rw [lookup_append_none hl, lookup_singleton_self]
    · have hqp : ¬q.name = p.name := by
        intro he
        exact hnd.1 (he ▸ List.mem_map_of_mem Param.name hp')
      by_cases hc : hints.lookup q.name = Option.none ∧ q.default = some PyVal.none
      · rw [patchHints, if_pos hc]
        refine ih hnd.2 hp' ?_
        rw [lookup_append_none hl, lookup_singleton_ne hqp]
      · rw [patchHints, if_neg hc]
        exact ih hnd.2 hp' hl

/-- After one pass, every parameter with a `None` default has a binding. -/
lemma patchHints_saturates {ps : List Param} {hints : List (String × Ty)} {b : Bool}
    {p : Param} (hp : p ∈ ps) (hd : p.default = some PyVal.none) :
    (((patchHints ps hints b).1).lookup p.name).isSome := by
  induction ps generalizing hints b with
  | nil => exact absurd hp (by simp)
  | cons q ps ih =>
    rcases List.mem_cons.mp hp with hpq | hp'
    · rw [hpq] at hd ⊢
      by_cases hc : hints.lookup q.name = Option.none ∧ q.default = some PyVal.none
      · rw [patchHints, if_pos hc]
        have hb : (hints ++ [(q.name, Ty.str)]).lookup q.name = some Ty.str := by
          rw [lookup_append_none hc.1, lookup_singleton_self]
        rw [patchHints_mono hb]
        rfl
      · rw [not_and] at hc
        obtain ⟨v, hv⟩ := Option.ne_none_iff_exists'.mp (fun hn => hc hn hd)
        rw [patchHints, if_neg (by rw [hv]; simp)]
        rw [patchHints_mono hv]
        rfl
    · by_cases hq : hints.lookup q.name = Option.none ∧ q.default = some PyVal.none
      · rw [patchHints, if_pos hq]
        exact ih hp'
      · rw [patchHints, if_neg hq]
        exact ih hp'

/-- Once the changed flag is raised it stays raised. -/
lemma patchHints_flag_true {ps : List Param} {hints : List (String × Ty)} :
    (patchHints ps hints true).2 = true := by
  induction ps generalizing hints with
  | nil => rfl
  | cons q ps ih =>
    by_cases hq : hints.lookup q.name = Option.none ∧ q.default = some PyVal.none
    · rw [patchHints, if_pos hq]; exact ih
    · rw [patchHints, if_neg hq]; exact ih

/-- When the loop ends with the changed flag still down, the dict is untouched. -/
lemma patchHints_unchanged {ps : List Param} {hints : List (String × Ty)}
    (h : (patchHints ps hints false).2 = false) :
    (patchHints ps hints false).1 = hints := by
  induction ps generalizing hints with
  | nil => rfl
  | cons q ps ih =>
    by_cases hq : hints.lookup q.name = Option.none ∧ q.default = some PyVal.none
    · rw [patchHints, if_pos hq] at h
      exact absurd h (by rw [patchHints_flag_true]; simp)
    · rw [patchHints, if_neg hq] at h ⊢
      exact ih h

/-- If no parameter triggers the patch, the loop is the identity on the dict
(whatever the incoming flag). -/
lemma patchHints_of_saturated {ps : List Param} {hints : List (String × Ty)} {b : Bool}
    (h : ∀ p ∈ ps, p.default = some PyVal.none → (hints.lookup p.name).isSome) :
    patchHints ps hints b = (hints, b) := by
  induction ps generalizing hints b with
  | nil => rfl
  | cons q ps ih =>
    by_cases hq : hints.lookup q.name = Option.none ∧ q.default = some PyVal.none
    · have := h q (by simp) hq.2
      rw [hq.1] at this
      exact absurd this (by simp)
    · rw [patchHints, if_neg hq]
      exact ih (fun p hp => h p (by simp [hp]))

/-- Closed form of `sanitizeTool` on a tool whose signature inspection
succeeds: the hints dict is replaced by the patched one (when nothing was
patched the two branches of line 44 agree). -/
lemma sanitizeTool_eq {f : ToolFn} (h : f.sigFails = false) :
    sanitizeTool f = { f with hints := (patchHints f.params f.hints false).1 } := by
  by_cases hc : (patchHints f.params f.hints false).2 = true
  · simp [sanitizeTool, h, hc]
  · rw [Bool.not_eq_true] at hc
    simp [sanitizeTool, h, hc, patchHints_unchanged hc]
    rw [← h]

/-- A tool whose signature inspection raises is passed through unmodified. -/
lemma sanitizeTool_of_sigFails {f : ToolFn} (h : f.sigFails = true) :
    sanitizeTool f = f := by
  rw [sanitizeTool, if_pos h]

/-- The patching never touches the signature itself. -/
lemma sanitizeTool_params (f : ToolFn) : (sanitizeTool f).params = f.params := by
  by_cases h : f.sigFails = true
  · rw [sanitizeTool_of_sigFails h]
  · rw [sanitizeTool_eq (Bool.not_eq_true _ |>.mp h)]

/-! ### String lemmas for the error text -/

lemma toList_append (s t : String) : (s ++ t).toList = s.toList ++ t.toList := by
  cases s
  cases t
  rfl

lemma toList_truncate (s : String) (n : Nat) : (truncate s n).toList = s.toList.take n := rfl

lemma length_truncate_le (s : String) (n : Nat) : (truncate s n).length ≤ n :=
  List.length_take_le n s.toList

lemma truncate_of_length_le {s : String} {n : Nat} (h : s.length ≤ n) : truncate s n = s := by
  cases s with
  | mk data => exact congrArg String.mk (List.take_of_length_le h)

lemma errorHead_toList_length : errorHead.toList.length = 31 := rfl

lemma truncate_append_toList {s t : String} {n : Nat} (h : s.toList.length ≤ n) :
    (truncate (s ++ t) n).toList = s.toList ++ t.toList.take (n - s.toList.length) := by
  rw [toList_truncate, toList_append, List.take_append_eq_append_take,
    List.take_of_length_le h]

/-! ### Characterization of the orchestrator -/

/-- Validation failure (line 20) returns after the log with nothing else. -/
lemma run_of_not_validated {env : Env} (h : validated env = false) :
    run env = Except.ok abortResult := by
  simp only [run, h]

/-- When the try block ends normally, the run is exactly its outcome. -/
lemma run_of_no_raise {env : Env} (hv : validated env = true)
    (hm : (tryBody env).raised = Option.none) :
    run env = Except.ok ⟨false, (tryBody env).completionCalls, (tryBody env).completionTools,
      (tryBody env).attempts, []⟩ := by
  simp only [run, hv, hm]

/-- When the try block raises, the handler of lines 82-90 runs: one error log
and one notification attempt with the truncated error text. -/
lemma run_of_raised {env : Env} {m : String} (hv : validated env = true)
    (hm : (tryBody env).raised = some m) :
    run env = Except.ok ⟨false, (tryBody env).completionCalls, (tryBody env).completionTools,
      (tryBody env).attempts ++
        [⟨SendKind.notification, env.chat_id.getD "", truncate (errorHead ++ m) 4000, false,
          env.notifSend.isOk⟩],
      ["Error in agent processing: " ++ m]⟩ := by
  simp only [run, hv, hm]

/-- Every send attempt made inside the try block is the primary send. -/
lemma tryBody_attempts_primary (env : Env) :
    ∀ a ∈ (tryBody env).attempts, a.kind = SendKind.primary := by
  obtain ⟨ak, bt, cid, msg, ci, lt, reg, comp, ps, ns⟩ := env
  cases ci <;> cases lt <;> cases comp <;> cases ps <;> simp [tryBody]

/-- When the try block ends normally, exactly one send was attempted: the
successful primary send. -/
lemma tryBody_no_raise_attempts {env : Env} (hm : (tryBody env).raised = Option.none) :
    ∃ t : Option String, (tryBody env).attempts =
      [⟨SendKind.primary, env.chat_id.getD "", finalTextOf t, true, true⟩] := by
  obtain ⟨ak, bt, cid, msg, ci, lt, reg, comp, ps, ns⟩ := env
  cases ci <;> cases lt <;> cases comp <;> cases ps <;> simp_all [tryBody]

/-- When the try block raises, any attempt it made is a failed primary send. -/
lemma tryBody_raised_attempts {env : Env} {m : String} (hm : (tryBody env).raised = some m) :
    (tryBody env).attempts = [] ∨
    ∃ t : Option String, (tryBody env).attempts =
      [⟨SendKind.primary, env.chat_id.getD "", finalTextOf t, true, false⟩] := by
  obtain ⟨ak, bt, cid, msg, ci, lt, reg, comp, ps, ns⟩ := env
  cases ci <;> cases lt <;> cases comp <;> cases ps <;> simp_all [tryBody]

lemma ToolFn.ext' {f g : ToolFn} (h1 : f.toolName = g.toolName) (h2 : f.params = g.params)
    (h3 : f.hints = g.hints) (h4 : f.sigFails = g.sigFails) : f = g := by
  cases f
  cases g
  simp_all

lemma sanitizeTool_toolName (f : ToolFn) : (sanitizeTool f).toolName = f.toolName := by
  by_cases h : f.sigFails = true
  · rw [sanitizeTool_of_sigFails h]
  · rw [sanitizeTool_eq (Bool.not_eq_true _ |>.mp h)]

lemma sanitizeTool_sigFails (f : ToolFn) : (sanitizeTool f).sigFails = f.sigFails := by
  by_cases h : f.sigFails = true
  · rw [sanitizeTool_of_sigFails h]
  · rw [sanitizeTool_eq (Bool.not_eq_true _ |>.mp h)]

lemma sanitizeTool_hints {f : ToolFn} (h : f.sigFails = false) :
    (sanitizeTool f).hints = (patchHints f.params f.hints false).1 := by
  rw [sanitizeTool_eq h]

/-- The per-tool patch is idempotent: a second pass finds every
None-defaulted parameter already bound and changes nothing. -/
lemma sanitizeTool_idem (f : ToolFn) : sanitizeTool (sanitizeTool f) = sanitizeTool f := by
  by_cases h : f.sigFails = true
  · rw [sanitizeTool_of_sigFails h, sanitizeTool_of_sigFails h]
  · rw [Bool.not_eq_true] at h
    have h2 : (sanitizeTool f).sigFails = false := by rw [sanitizeTool_sigFails, h]
    apply ToolFn.ext'
    · rw [sanitizeTool_toolName, sanitizeTool_toolName]
    · rw [sanitizeTool_params, sanitizeTool_params]
    · rw [sanitizeTool_hints h2, sanitizeTool_hints h, sanitizeTool_params]
      have hsat : ∀ p ∈ f.params, p.default = some PyVal.none →
          (((patchHints f.params f.hints false).1).lookup p.name).isSome :=
        fun p hp hd => patchHints_saturates hp hd
      rw [patchHints_of_saturated hsat]
    · rw [sanitizeTool_sigFails, sanitizeTool_sigFails]

/-! ### Claim theorems: the sanitizer -/

/-- C6: sanitization is idempotent: applying the sanitizer twice to any
descriptor set yields the same result as applying it once. -/
theorem sanitize_idempotent (D : List ToolFn) : sanitize (sanitize D) = sanitize D := by
  unfold sanitize
  rw [List.map_map]
  exact List.map_congr_left (fun f _ => sanitizeTool_idem f)

/-- C4: for a descriptor whose signature inspection succeeds (and whose
parameter names are distinct, as Python signatures guarantee), sanitization
rewrites exactly the parameters with no declared type and a None default,
binding them to the str type tag; every other parameter's type binding is
unchanged, keys bound to other names are unchanged, and the parameter list
itself (count, order, defaults) is untouched. -/
theorem sanitize_targeted_repair (f : ToolFn) (hs : f.sigFails = false)
    (hnd : (f.params.map Param.name).Nodup) :
    (sanitizeTool f).params = f.params ∧
    (∀ p ∈ f.params,
      (f.hints.lookup p.name = Option.none ∧ p.default = some PyVal.none →
        (sanitizeTool f).hints.lookup p.name = some Ty.str) ∧
      (f.hints.lookup p.name = Option.none ∧ ¬p.default = some PyVal.none →
        (sanitizeTool f).hints.lookup p.name = Option.none) ∧
      (∀ v, f.hints.lookup p.name = some v →
        (sanitizeTool f).hints.lookup p.name = some v)) ∧
    (∀ k, (∀ p ∈ f.params, ¬p.name = k) →
      (sanitizeTool f).hints.lookup k = f.hints.lookup k) := by
  rw [sanitizeTool_eq hs]
  refine ⟨rfl, fun p hp => ⟨fun h => ?_, fun h => ?_, fun v hv => ?_⟩, fun k hk => ?_⟩
  · exact patchHints_sets hnd hp h.2 h.1
  · refine patchHints_none (fun q hq hqn => ?_) h.1
    have hqp : q = p := List.inj_on_of_nodup_map hnd hq hp (by rw [hqn])
    rw [hqp]
    exact h.2
  · exact patchHints_mono hv
  · cases hv : f.hints.lookup k with
    | some v => exact patchHints_mono hv
    | none => exact patchHints_none (fun q hq hqn => absurd hqn (hk q hq)) hv

/-- Witness for C4 at a concrete descriptor: one untyped None-defaulted
parameter (patched to str) and one int-defaulted parameter (left alone). -/
def fW4 : ToolFn :=
  ⟨"get_weather", [⟨"city", some PyVal.none⟩, ⟨"days", some (PyVal.int 3)⟩],
   [("days", Ty.int)], false⟩

theorem sanitize_targeted_repair_witness :
    fW4.sigFails = false ∧ (fW4.params.map Param.name).Nodup ∧
    (sanitizeTool fW4).params = fW4.params :=
  ⟨rfl, by decide, (sanitize_targeted_repair fW4 rfl (by decide)).1⟩

/-- C10: a parameter with no declared type and no default at all (Parameter.empty,
modelled as Option.none, as opposed to an explicit None default) is left
unchanged: the str rewrite fires only when the default is exactly None. -/
theorem no_default_no_patch (f : ToolFn) (hs : f.sigFails = false)
    (hnd : (f.params.map Param.name).Nodup) (p : Param) (hp : p ∈ f.params)
    (h1 : f.hints.lookup p.name = Option.none) (h2 : p.default = Option.none) :
    (sanitizeTool f).hints.lookup p.name = Option.none ∧
    (sanitizeTool f).params = f.params := by
  rw [sanitizeTool_eq hs]
  refine ⟨?_, rfl⟩
  refine patchHints_none (fun q hq hqn => ?_) h1
  have hqp : q = p := List.inj_on_of_nodup_map hnd hq hp (by rw [hqn])
  rw [hqp, h2]
  simp

/-- Witness for C10: a single untyped parameter with no default. -/
def fW10 : ToolFn := ⟨"ping", [⟨"host", Option.none⟩], [], false⟩

theorem no_default_no_patch_witness :
    fW10.sigFails = false ∧ (⟨"host", Option.none⟩ : Param) ∈ fW10.params ∧
    (sanitizeTool fW10).hints.lookup "host" = Option.none :=
  ⟨rfl, by decide,
    (no_default_no_patch fW10 rfl (by decide) ⟨"host", Option.none⟩ (by decide) rfl rfl).1⟩

/-- C7: sanitization is per-tool fault-isolated: when inspecting descriptor i
raises, the output still has the same length, every position j holds the
sanitized descriptor j (original order), position i holds the original
descriptor unmodified, and no exception propagates (the sanitizer is a total
function on descriptor lists). -/
theorem sanitize_fault_isolated (D : List ToolFn) (i : Nat) (hi : i < D.length)
    (hf : D[i].sigFails = true) :
    (sanitize D).length = D.length ∧
    (∀ j (hj : j < D.length) (hj' : j < (sanitize D).length),
      (sanitize D)[j] = sanitizeTool D[j]) ∧
    ∀ hi' : i < (sanitize D).length, (sanitize D)[i] = D[i] := by
  unfold sanitize
  refine ⟨List.length_map D sanitizeTool, fun j hj hj' => List.getElem_map sanitizeTool, fun hi' => ?_⟩
  rw [List.getElem_map sanitizeTool]
  exact sanitizeTool_of_sigFails hf

/-- Witness for C7: a two-descriptor batch whose second descriptor's
signature inspection raises. -/
def DW7 : List ToolFn :=
  [⟨"ok_tool", [⟨"x", some PyVal.none⟩], [], false⟩, ⟨"bad_tool", [], [], true⟩]

theorem sanitize_fault_isolated_witness :
    1 < DW7.length ∧ (sanitize DW7).length = DW7.length :=
  ⟨by decide, (sanitize_fault_isolated DW7 1 (by decide) (by decide)).1⟩

/-- Concrete registry callable with an untyped None-defaulted parameter. -/
def tBad : ToolFn := ⟨"get_weather", [⟨"city", some PyVal.none⟩], [], false⟩

/-- C5 counterexample: the registry's own callables are NOT unchanged after
sanitization runs; for the singleton registry holding a tool with one untyped
None-defaulted parameter, the registry state afterwards differs from the
original. -/
theorem registry_unchanged_cex : ¬registryAfter [tBad] = [tBad] := by decide

/-- C5 (amended): the sanitizer patches type-annotation metadata in place on
the registry-owned callables: after the run the registry holds the sanitized
callable, which differs from the original whenever some parameter was patched
(the parameter list itself is never changed). -/
theorem registry_mutated_in_place (D : List ToolFn) (f : ToolFn) (hfD : f ∈ D)
    (hs : f.sigFails = false) (hnd : (f.params.map Param.name).Nodup)
    (p : Param) (hp : p ∈ f.params) (h1 : f.hints.lookup p.name = Option.none)
    (h2 : p.default = some PyVal.none) :
    sanitizeTool f ∈ registryAfter D ∧ ¬sanitizeTool f = f ∧
    (sanitizeTool f).params = f.params := by
  refine ⟨List.mem_map_of_mem sanitizeTool hfD, fun he => ?_, sanitizeTool_params f⟩
  have hstr : (sanitizeTool f).hints.lookup p.name = some Ty.str :=
    ((sanitize_targeted_repair f hs hnd).2.1 p hp).1 ⟨h1, h2⟩
  rw [he, h1] at hstr
  exact Option.noConfusion hstr

theorem registry_mutated_in_place_witness :
    tBad ∈ [tBad] ∧ ¬sanitizeTool tBad = tBad :=
  ⟨by decide,
    (registry_mutated_in_place [tBad] tBad (by decide) rfl (by decide)
      ⟨"city", some PyVal.none⟩ (by decide) rfl rfl).2.1⟩

/-! ### Claim theorems: the orchestrator -/

/-- C3: when any of the four required inputs is absent or empty, the
invocation aborts: the missing-variables message is logged, no completion
call and no send attempt of any kind is made, and the run terminates
normally. -/
theorem missing_env_aborts (env : Env)
    (h : env.api_key = Option.none ∨ env.api_key = some "" ∨
      env.bot_token = Option.none ∨ env.bot_token = some "" ∨
      env.chat_id = Option.none ∨ env.chat_id = some "" ∨
      env.message = Option.none ∨ env.message = some "") :
    run env = Except.ok abortResult ∧ abortResult.aborted = true ∧
    abortResult.sends = [] ∧ abortResult.completionCalls = 0 ∧
    abortResult.completionTools = Option.none ∧
    abortResult.errorLogs = [missingEnvMsg] := by
  have he : ("" : String).isEmpty = true := rfl
  have hv : validated env = false := by
    rcases h with h | h | h | h | h | h | h | h <;> simp [validated, truthy, h, he]
  exact ⟨run_of_not_validated hv, rfl, rfl, rfl, rfl, rfl⟩

/-- Witness environment for C3: the completion credential is unset, all
other inputs present. -/
def envW3 : Env :=
  ⟨Option.none, some "t", some "42", some "hi", Option.none, Option.none, [],
   Except.ok (some "sunny"), Except.ok (), Except.ok ()⟩

theorem missing_env_aborts_witness :
    envW3.api_key = Option.none ∧ run envW3 = Except.ok abortResult :=
  ⟨rfl, (missing_env_aborts envW3 (Or.inl rfl)).1⟩

/-- C8: when the completion result's text is absent or empty, the fixed
fallback string (not the empty string) is the text of the primary send
attempt, and this path is not an error: when that send succeeds, the run
ends with that single send, no error log and no notification. -/
theorem empty_completion_fallback (env : Env) (r : RunResult)
    (hok : run env = Except.ok r) (hv : validated env = true)
    (hc : env.clientInitFails = Option.none) (hl : env.listToolsFails = Option.none)
    (ht : env.completion = Except.ok Option.none ∨ env.completion = Except.ok (some "")) :
    ∃ a, a ∈ r.sends ∧ a.kind = SendKind.primary ∧ a.text = FALLBACK ∧
      ¬a.text = "" ∧ a.markdown = true ∧
      (env.primarySend = Except.ok () → r.sends = [a] ∧ r.errorLogs = [] ∧
        notifAttempts r = 0) := by
  obtain ⟨ak, bt, cid, msg, ci, lt, reg, comp, ps, ns⟩ := env
  cases hc
  cases hl
  have he : ("" : String).isEmpty = true := rfl
  have hF : ¬FALLBACK = "" := by decide
  rcases ht with ht | ht <;> cases ht <;> rcases ps with pm | pu
  · rw [run_of_raised hv rfl] at hok
    simp only [Except.ok.injEq] at hok
    subst hok
    refine ⟨⟨SendKind.primary, cid.getD "", FALLBACK, true, false⟩, ?_, rfl, rfl, hF, rfl, ?_⟩
    · simp [tryBody, finalTextOf, he]
    · intro hcontra
      exact absurd hcontra (by simp)
  · cases pu
    rw [run_of_no_raise hv rfl] at hok
    simp only [Except.ok.injEq] at hok
    subst hok
    refine ⟨⟨SendKind.primary, cid.getD "", FALLBACK, true, true⟩, ?_, rfl, rfl, hF, rfl, ?_⟩
    · simp [tryBody, finalTextOf, he]
    · intro _
      refine ⟨by simp [tryBody, finalTextOf, he], rfl, ?_⟩
      simp [notifAttempts, tryBody, finalTextOf, isNotif, he]
  · rw [run_of_raised hv rfl] at hok
    simp only [Except.ok.injEq] at hok
    subst hok
    refine ⟨⟨SendKind.primary, cid.getD "", FALLBACK, true, false⟩, ?_, rfl, rfl, hF, rfl, ?_⟩
    · simp [tryBody, finalTextOf, he]
    · intro hcontra
      exact absurd hcontra (by simp)
  · cases pu
    rw [run_of_no_raise hv rfl] at hok
    simp only [Except.ok.injEq] at hok
    subst hok
    refine ⟨⟨SendKind.primary, cid.getD "", FALLBACK, true, true⟩, ?_, rfl, rfl, hF, rfl, ?_⟩
    · simp [tryBody, finalTextOf, he]
    · intro _
      refine ⟨by simp [tryBody, finalTextOf, he], rfl, ?_⟩
      simp [notifAttempts, tryBody, finalTextOf, isNotif, he]

/-- Witness environment for C8: completion returns no text, sends succeed. -/
def envW8 : Env :=
  ⟨some "k", some "t", some "42", some "hi", Option.none, Option.none, [],
   Except.ok Option.none, Except.ok (), Except.ok ()⟩

theorem empty_completion_fallback_witness :
    validated envW8 = true ∧
    ∃ a, a ∈ (⟨false, 1, some [], [⟨SendKind.primary, "42", FALLBACK, true, true⟩],
        []⟩ : RunResult).sends ∧
      a.kind = SendKind.primary ∧ a.text = FALLBACK :=
  ⟨by decide,
    match empty_completion_fallback envW8
        ⟨false, 1, some [], [⟨SendKind.primary, "42", FALLBACK, true, true⟩], []⟩
        rfl (by decide) rfl rfl (Or.inl rfl) with
    | ⟨a, h1, h2, h3, _, _, _⟩ => ⟨a, h1, h2, h3⟩⟩

/-- C9: the orchestrator never raises to its caller: every invocation returns
a result; and failures of the recovery-notification send are swallowed
unconditionally: replacing a failing notification send by a succeeding one
changes nothing observable except the recorded provider status of that one
attempt. -/
theorem notif_failures_swallowed (env : Env) :
    (∃ r, run env = Except.ok r) ∧
    ∀ m, (run { env with notifSend := Except.error m }).map
        (fun r => (r.aborted, r.completionCalls, r.completionTools,
          r.sends.map (fun a => (a.kind, a.chatId, a.text, a.markdown)), r.errorLogs)) =
      (run { env with notifSend := Except.ok () }).map
        (fun r => (r.aborted, r.completionCalls, r.completionTools,
          r.sends.map (fun a => (a.kind, a.chatId, a.text, a.markdown)), r.errorLogs)) := by
  obtain ⟨ak, bt, cid, msg, ci, lt, reg, comp, ps, ns⟩ := env
  constructor
  · cases hv : validated ⟨ak, bt, cid, msg, ci, lt, reg, comp, ps, ns⟩ with
    | false => exact ⟨abortResult, run_of_not_validated hv⟩
    | true =>
      cases hm : (tryBody ⟨ak, bt, cid, msg, ci, lt, reg, comp, ps, ns⟩).raised with
      | none => exact ⟨_, run_of_no_raise hv hm⟩
      | some m => exact ⟨_, run_of_raised hv hm⟩
  · intro m
    cases hv : (truthy ak && truthy bt && truthy cid && truthy msg) with
    | false => simp [run, validated, hv]
    | true =>
      cases ci <;> cases lt <;> cases comp <;> cases ps <;>
        simp [run, validated, tryBody, hv, Except.map]

/-- Concrete environment in which the primary send fails. -/
def envC1 : Env :=
  ⟨some "k", some "t", some "42", some "hi", Option.none, Option.none, [],
   Except.ok (some "sunny"), Except.error "boom", Except.ok ()⟩

/-- The run result of envC1: a failed primary attempt followed by the
notification attempt. -/
def rC1 : RunResult :=
  ⟨false, 1, some [],
   [⟨SendKind.primary, "42", "sunny", true, false⟩,
    ⟨SendKind.notification, "42", truncate (errorHead ++ "boom") 4000, false, true⟩],
   ["Error in agent processing: boom"]⟩

/-- C1 counterexample: when the primary send fails, the invocation makes a
primary-send attempt AND a recovery-notification attempt, so it is not the
case that exactly one of {aborted with no send, a primary-send attempt, a
recovery-notification attempt} occurs. -/
theorem exactly_one_outcome_cex :
    run envC1 = Except.ok rC1 ∧ 1 ≤ primaryAttempts rC1 ∧ 1 ≤ notifAttempts rC1 ∧
    ¬exactlyOne (abortedNoSend rC1) (decide (1 ≤ primaryAttempts rC1))
        (decide (1 ≤ notifAttempts rC1)) = true :=
  ⟨rfl, by decide, by decide, by decide⟩

/-- C1 (amended): every invocation falls in exactly one of three classes:
aborted with no send at all, a successful primary send, or a
recovery-notification attempt; moreover a non-aborted invocation attempts at
least one send, and no run with a successful primary send also attempts an
error notification. -/
theorem run_outcome_trichotomy (env : Env) (r : RunResult)
    (h : run env = Except.ok r) :
    exactlyOne (abortedNoSend r) (primarySendOk r) (decide (1 ≤ notifAttempts r)) = true ∧
    (r.aborted = false → ¬r.sends = []) ∧
    ¬(primarySendOk r = true ∧ 1 ≤ notifAttempts r) := by
  obtain ⟨ak, bt, cid, msg, ci, lt, reg, comp, ps, ns⟩ := env
  cases hv : (truthy ak && truthy bt && truthy cid && truthy msg) with
  | false =>
    simp only [run, validated, hv] at h
    simp only [Except.ok.injEq] at h
    subst h
    decide
  | true =>
    cases ci <;> cases lt <;> cases comp <;> cases ps <;>
      (simp only [run, validated, tryBody, hv, Except.ok.injEq] at h
       subst h
       refine ⟨?_, ?_, ?_⟩ <;>
         simp [exactlyOne, abortedNoSend, primarySendOk, notifAttempts, isPrimary, isNotif])

theorem run_outcome_trichotomy_witness :
    run envW3 = Except.ok abortResult ∧
    exactlyOne (abortedNoSend abortResult) (primarySendOk abortResult)
      (decide (1 ≤ notifAttempts abortResult)) = true :=
  ⟨rfl, (run_outcome_trichotomy envW3 abortResult rfl).1⟩

lemma isNotif_of_primary {a : SendAttempt} (h : a.kind = SendKind.primary) :
    isNotif a = false := by
  unfold isNotif
  rw [h]

lemma errorHead_prefix_truncate (m : String) :
    errorHead.toList <+: (truncate (errorHead ++ m) 4000).toList := by
  rw [truncate_append_toList (by rw [errorHead_toList_length]; norm_num)]
  exact List.prefix_append _ _

/-- C2 (amended): for every exception raised in Processing or in the primary
send, the handler attempts exactly one notification send, the final send of
the run; its text is the first 4000 characters of the fixed error header
followed by the exception's message, so it begins with the header, has length
at most 4000, and contains the exception's full message whenever header plus
message fit within 4000 characters. -/
theorem recovery_notification (env : Env) (r : RunResult) (m : String)
    (hok : run env = Except.ok r) (hv : validated env = true)
    (hexc : (tryBody env).raised = some m) :
    notifAttempts r = 1 ∧
    ∃ a, r.sends.getLast? = some a ∧ a.kind = SendKind.notification ∧
      a.text = truncate (errorHead ++ m) 4000 ∧
      errorHead.toList <+: a.text.toList ∧ a.text.length ≤ 4000 ∧
      ((errorHead ++ m).length ≤ 4000 →
        a.text = errorHead ++ m ∧ m.toList <:+: a.text.toList) := by
  rw [run_of_raised hv hexc] at hok
  simp only [Except.ok.injEq] at hok
  subst hok
  constructor
  · unfold notifAttempts
    simp only [List.countP_append]
    have h0 : (tryBody env).attempts.countP isNotif = 0 := by
      rw [List.countP_eq_zero]
      intro a ha
      simp [isNotif_of_primary (tryBody_attempts_primary env a ha)]
    rw [h0]
    simp [List.countP_cons, isNotif]
  · refine ⟨_, List.getLast?_concat _, rfl, rfl, errorHead_prefix_truncate m,
      length_truncate_le _ 4000, fun hfit => ?_⟩
    have ht : truncate (errorHead ++ m) 4000 = errorHead ++ m := truncate_of_length_le hfit
    refine ⟨ht, ?_⟩
    rw [ht, toList_append]
    exact (List.suffix_append _ _).isInfix

/-- Witness environment for C2: the primary send raises with message boom. -/
def envW2 : Env :=
  ⟨some "k", some "t", some "42", some "hi", Option.none, Option.none, [],
   Except.ok (some "sunny"), Except.error "boom", Except.ok ()⟩

def rW2 : RunResult :=
  ⟨false, 1, some [],
   [⟨SendKind.primary, "42", "sunny", true, false⟩,
    ⟨SendKind.notification, "42", truncate (errorHead ++ "boom") 4000, false, true⟩],
   ["Error in agent processing: boom"]⟩

theorem recovery_notification_witness :
    validated envW2 = true ∧ (tryBody envW2).raised = some "boom" ∧
    notifAttempts rW2 = 1 :=
  ⟨by decide, rfl, (recovery_notification envW2 rW2 "boom" rfl (by decide) rfl).1⟩

/-- An exception message of 3970 identical characters (code point 98). -/
def mBig : String := String.mk (List.replicate 3970 (Char.ofNat 98))

/-- Environment in which the primary send raises with the long message. -/
def envC2 : Env :=
  ⟨some "k", some "t", some "42", some "hi", Option.none, Option.none, [],
   Except.ok (some "sunny"), Except.error mBig, Except.ok ()⟩

def rC2 : RunResult :=
  ⟨false, 1, some [],
   [⟨SendKind.primary, "42", "sunny", true, false⟩,
    ⟨SendKind.notification, "42", truncate (errorHead ++ mBig) 4000, false, true⟩],
   ["Error in agent processing: " ++ mBig]⟩

lemma count_b_errorHead : errorHead.toList.count (Char.ofNat 98) = 0 := by decide

lemma mBig_not_infix : ¬mBig.toList <:+: (truncate (errorHead ++ mBig) 4000).toList := by
  intro hinf
  have hcount := hinf.sublist.count_le (Char.ofNat 98)
  rw [truncate_append_toList (by rw [errorHead_toList_length]; norm_num)] at hcount
  have hm : mBig.toList = List.replicate 3970 (Char.ofNat 98) := rfl
  rw [hm, List.count_append, count_b_errorHead, errorHead_toList_length,
    List.take_replicate, List.count_replicate_self, List.count_replicate_self] at hcount
  norm_num at hcount

/-- C2 counterexample: with an exception message of 3970 characters, the
(unique) notification attempt's text does NOT contain the exception's
message: a text that contains the message, starts with the 31-character
header, and has length at most 4000 cannot exist for messages longer than
3969 characters. -/
theorem recovery_contains_cex :
    run envC2 = Except.ok rC2 ∧ notifAttempts rC2 = 1 ∧
    ∀ a, a ∈ rC2.sends → a.kind = SendKind.notification →
      ¬mBig.toList <:+: a.text.toList := by
  refine ⟨rfl, by decide, ?_⟩
  intro a ha hk
  simp only [rC2, List.mem_cons, List.mem_singleton, List.not_mem_nil, or_false] at ha
  rcases ha with rfl | rfl
  · exact absurd hk (by decide)
  · exact mBig_not_infix

end TelegramAgent
